import Mathlib

/-!
Shallow embedding of the DUAL_LLM_CHAT repository for specification checking.

Embedded sources:
* src/src/pages/Index.tsx — the turn orchestrator page (state, reset, send handlers);
* src/src/services/api.ts — history formatter and transport adapter;
* the server LLM service (provider message building, shared by the Groq and
  DeepSeek blocking/streaming paths);
* src/server/routes/llm.js — the POST /llm/stream route.

Environment-supplied values (clock readings, Date.now identifiers, network
responses, provider behavior) are passed as explicit parameters.  JavaScript
string truthiness is modelled as inequality with the empty string; `null` and
`undefined` are modelled with `Option`.
-/

namespace DualLLMChat

/-- Side of the conversation: the two participants of Index.tsx
("llm1" | "llm2"). -/
inductive Side
  | llm1
  | llm2
deriving DecidableEq, Repr

/-- Peer of a participant. -/
def Side.peer : Side → Side
  | Side.llm1 => Side.llm2
  | Side.llm2 => Side.llm1

/-- Message of Index.tsx: interface Message of src/src/pages/Index.tsx
lines 6-10 (id, content, timestamp). -/
structure Message where
  id : String
  content : String
  timestamp : String
deriving DecidableEq, Repr

/-- Conversation state of the Index page, src/src/pages/Index.tsx lines 31-33
and 60-74: the useState hooks isRunning, currentTurn (null modelled as none),
turnCount, llm1Messages, llm2Messages, and the two typing flags. -/
structure IndexState where
  isRunning : Bool
  currentTurn : Option Side
  turnCount : Nat
  llm1Messages : List Message
  llm2Messages : List Message
  isLlm1Typing : Bool
  isLlm2Typing : Bool
deriving DecidableEq, Repr

/-- getInitialMessage of src/src/pages/Index.tsx lines 36-41.  The topic comes
from navigation state; JavaScript truthiness of the topic string is
topic ≠ "". -/
def getInitialMessage (topic : String) (llmNumber : Nat) (isStarter : Bool) : String :=
  if isStarter ∧ topic ≠ "" then
    "I\x27d like to discuss: \"" ++ topic ++ "\". Let\x27s begin our conversation on this topic."
  else
    "Hello! I\x27m LLM " ++ toString llmNumber ++ ". Ready to engage in our conversation" ++
      (if topic ≠ "" then " about \"" ++ topic ++ "\"" else "") ++ "."

/-- Initial state of the Index page: useState initializers of
src/src/pages/Index.tsx lines 31-33, 60-74, 90-91.  `now` is the
environment clock reading used for the initial timestamps. -/
def initialState (topic : String) (startingLlm : Option Side) (now : String) : IndexState :=
  { isRunning := false
    currentTurn := none
    turnCount := 0
    llm1Messages := [⟨"1", getInitialMessage topic 1 (decide (startingLlm = some Side.llm1)), now⟩]
    llm2Messages := [⟨"1", getInitialMessage topic 2 (decide (startingLlm = some Side.llm2)), now⟩]
    isLlm1Typing := false
    isLlm2Typing := false }

/-- handleStart of src/src/pages/Index.tsx lines 93-98. -/
def handleStart (startingLlm : Option Side) (s : IndexState) : IndexState :=
  { s with
    isRunning := true
    currentTurn := some (startingLlm.getD Side.llm1)
    turnCount := 1 }

/-- handlePause of src/src/pages/Index.tsx lines 100-103. -/
def handlePause (s : IndexState) : IndexState :=
  { s with isRunning := false, currentTurn := none }

/-- handleReset of src/src/pages/Index.tsx lines 105-125: clears running,
current turn and the counter, and replaces each log with a single fresh
initial greeting message.  `now` is the clock reading taken for the reset
timestamps. -/
def handleReset (topic : String) (startingLlm : Option Side) (now : String)
    (s : IndexState) : IndexState :=
  { s with
    isRunning := false
    currentTurn := none
    turnCount := 0
    llm1Messages := [⟨"1", getInitialMessage topic 1 (decide (startingLlm = some Side.llm1)), now⟩]
    llm2Messages := [⟨"1", getInitialMessage topic 2 (decide (startingLlm = some Side.llm2)), now⟩] }

/-- Sample content appended by handleLlm1SendMessage,
src/src/pages/Index.tsx line 130. -/
def sampleContentLlm1 : String :=
  "This is a sample message from LLM 1. In a real implementation, this would come from the AI model."

/-- Sample content appended by handleLlm2SendMessage,
src/src/pages/Index.tsx line 141. -/
def sampleContentLlm2 : String :=
  "This is a sample message from LLM 2. In a real implementation, this would come from the AI model."

/-- handleLlm1SendMessage of src/src/pages/Index.tsx lines 127-136.  `nowId`
is the Date.now() identifier and `ts` the display timestamp, both supplied by
the environment. -/
def handleLlm1SendMessage (nowId ts : String) (s : IndexState) : IndexState :=
  { s with
    llm1Messages := s.llm1Messages ++ [⟨nowId, sampleContentLlm1, ts⟩]
    currentTurn := some Side.llm2
    turnCount := s.turnCount + 1 }

/-- handleLlm2SendMessage of src/src/pages/Index.tsx lines 138-147. -/
def handleLlm2SendMessage (nowId ts : String) (s : IndexState) : IndexState :=
  { s with
    llm2Messages := s.llm2Messages ++ [⟨nowId, sampleContentLlm2, ts⟩]
    currentTurn := some Side.llm1
    turnCount := s.turnCount + 1 }

/-- Dispatch of a send-message completion to the handler of the completing
participant. -/
def sendMessage (p : Side) (nowId ts : String) (s : IndexState) : IndexState :=
  match p with
  | Side.llm1 => handleLlm1SendMessage nowId ts s
  | Side.llm2 => handleLlm2SendMessage nowId ts s

/-! ## History formatter (src/src/services/api.ts, formatMessagesForAPI) -/

/-- Message shape consumed by formatMessagesForAPI
(src/src/services/api.ts lines 208-209): content and id. -/
structure ChatMsg where
  content : String
  id : String
deriving DecidableEq, Repr

/-- Role of a formatted history entry. -/
inductive Role
  | user
  | assistant
  | system
deriving DecidableEq, Repr

/-- Entry of the role-tagged history produced by formatMessagesForAPI. -/
structure Entry where
  role : Role
  content : String
deriving DecidableEq, Repr

/-- JavaScript Array.prototype.slice with a negative index: slice(-n) keeps
the last n elements (all of them when the list is shorter). -/
def takeLast (n : Nat) (l : List α) : List α :=
  l.drop (l.length - n)

/-- JavaScript String.prototype.trim: strips leading and trailing
whitespace. -/
def jsTrim (s : String) : String :=
  ⟨((s.toList.dropWhile Char.isWhitespace).reverse.dropWhile Char.isWhitespace).reverse⟩

/-- The interleaving loop of formatMessagesForAPI
(src/src/services/api.ts lines 225-233 and 244-252): pairs are visited by
index up to the longer side; at each index the peer entry is pushed with role
"user" and the responder entry with role "assistant", each only when its
trimmed content is non-empty. -/
def buildPairs (peer self : List ChatMsg) : List Entry :=
  (List.range (Nat.max peer.length self.length)).foldl
    (fun h i =>
      let h1 :=
        match peer[i]? with
        | some m => if jsTrim m.content ≠ "" then h ++ [⟨Role.user, m.content⟩] else h
        | none => h
      match self[i]? with
      | some m => if jsTrim m.content ≠ "" then h1 ++ [⟨Role.assistant, m.content⟩] else h1
      | none => h1)
    []

/-- The while-loop of formatMessagesForAPI that pops trailing assistant
entries (src/src/services/api.ts lines 237-239 and 256-258). -/
def dropTrailingAssistants : List Entry → List Entry
  | [] => []
  | e :: rest =>
    match dropTrailingAssistants rest with
    | [] => if e.role = Role.assistant then [] else [e]
    | r => e :: r

/-- The last-entry fix of formatMessagesForAPI (src/src/services/api.ts
lines 235-241 and 254-260): when the peer's last recent entry has non-empty
trimmed content, trailing assistant entries are popped and that entry is
appended with role "user". -/
def ensureTrailingUser (peerRecent : List ChatMsg) (history : List Entry) : List Entry :=
  match peerRecent.getLast? with
  | some m =>
    if jsTrim m.content ≠ "" then
      dropTrailingAssistants history ++ [⟨Role.user, m.content⟩]
    else history
  | none => history

/-- The history built by formatMessagesForAPI before filtering
(src/src/services/api.ts lines 212-261): drop each log's first entry, keep
the last 20 (maxHistory), interleave with the peer of the responding side
tagged "user", then apply the last-entry fix against the peer's recent
entries. -/
def interleavedHistory (llm1Messages llm2Messages : List ChatMsg) :
    Side → List Entry
  | Side.llm1 =>
    ensureTrailingUser (takeLast 20 (llm2Messages.drop 1))
      (buildPairs (takeLast 20 (llm2Messages.drop 1)) (takeLast 20 (llm1Messages.drop 1)))
  | Side.llm2 =>
    ensureTrailingUser (takeLast 20 (llm1Messages.drop 1))
      (buildPairs (takeLast 20 (llm1Messages.drop 1)) (takeLast 20 (llm2Messages.drop 1)))

/-- The log of the responding participant's peer: the log whose entries the
formatter tags "user" for the given responding side. -/
def peerLog : Side → List ChatMsg → List ChatMsg → List ChatMsg
  | Side.llm1, _, l2 => l2
  | Side.llm2, l1, _ => l1

/-- formatMessagesForAPI of src/src/services/api.ts lines 207-268: the
interleaved history is filtered of entries with falsy or whitespace-only
content; the result is returned only when it contains a "user" entry,
otherwise the empty list. -/
def formatMessagesForAPI (llm1Messages llm2Messages : List ChatMsg)
    (currentSide : Side) : List Entry :=
  let filteredHistory :=
    (interleavedHistory llm1Messages llm2Messages currentSide).filter
      (fun msg => decide (msg.content ≠ "" ∧ jsTrim msg.content ≠ ""))
  let hasUserMessage := filteredHistory.any (fun msg => decide (msg.role = Role.user))
  if hasUserMessage then filteredHistory else []

/-! ## Transport adapter (src/src/services/api.ts) -/

/-- Message of a role-tagged conversation history as exchanged with the
backend: role strings are kept verbatim ("user" | "assistant" | "system" |
"human" | "ai" at the type level of api.ts, arbitrary strings on the wire). -/
structure RoleMsg where
  role : String
  content : String
deriving DecidableEq, Repr

/-- LLMRequest of src/src/services/api.ts lines 12-21. -/
structure LLMRequest where
  model : String
  temperature : Float
  maxTokens : Nat
  systemPrompt : String
  conversationHistory : List RoleMsg

/-- LLMResponse of src/src/services/api.ts lines 23-27. -/
structure LLMResponse where
  content : String
  success : Bool
  error : Option String
deriving DecidableEq, Repr

/-- JavaScript `a || d` on a possibly-absent string: the default is taken
when the string is absent or empty (falsy). -/
def jsTruthyOr (o : Option String) (d : String) : String :=
  match o with
  | some s => if s = "" then d else s
  | none => d

/-- JavaScript String.prototype.includes. -/
def strIncludes (s pat : String) : Bool :=
  s.toList.tails.any (fun t => pat.toList == t.take pat.length)

/-- Parsed JSON body of a backend response, with the fields the client code
reads (content, success, error); a missing field reads as its JavaScript
falsy default. -/
structure JsonBody where
  content : String
  success : Bool
  error : Option String
deriving DecidableEq, Repr

/-- Backend outcome of one fetch of the blocking endpoint: the fetch promise
rejects with an Error carrying a message, or a response arrives with an ok
flag, a status and a body; body = none models a body on which JSON parsing
throws. -/
inductive GenOutcome
  | netFail (msg : String)
  | resp (ok : Bool) (status : Nat) (body : Option JsonBody)

/-- A generation outcome that is a backend failure in the sense of the
blocking contract: network failure, non-OK HTTP status, or a malformed
response body. -/
def GenOutcome.isFailure : GenOutcome → Prop
  | GenOutcome.netFail _ => True
  | GenOutcome.resp ok _ body => ok = false ∨ body = none

/-- Message of the SyntaxError thrown by response.json() on a malformed body;
the JavaScript engine always supplies a non-empty message, modelled here by
its most common value. -/
def jsonParseErrorMsg : String := "Unexpected end of JSON input"

/-- The augmented error thrown for model-not-found errors,
src/src/services/api.ts lines 48-54. -/
def modelNotFoundTips (errorMessage : String) : String :=
  errorMessage ++
    "\n\n💡 Tips:\n1. For DeepSeek: Make sure DEEPSEEK_API_KEY is set in your .env file\n2. Try using \"deepseek-chat\" (free tier available) or \"gpt-3.5-turbo\"\n3. You can change the model in the Model selector above\n\nGet DeepSeek API key at: https://platform.deepseek.com/usage"

/-- The augmented error thrown for quota errors,
src/src/services/api.ts lines 58-65. -/
def quotaExceededMsg : String :=
  "OpenAI API Quota Exceeded\n\n💡 Solutions:\n1. Switch to DeepSeek Chat (free tier available) - Change model to \"deepseek-chat\" in the Model selector\n2. Add billing to your OpenAI account: https://platform.openai.com/account/billing\n3. Wait for your quota to reset (usually monthly)\n\nDeepSeek is a great free alternative! Get your API key at: https://platform.deepseek.com/usage"

/-- The error-message selection of the non-OK branch of generateLLMResponse,
src/src/services/api.ts lines 47-68: the message actually thrown, possibly
augmented with remediation tips. -/
def composeThrownError (errorMessage : String) : String :=
  if strIncludes errorMessage "does not exist" || strIncludes errorMessage "MODEL_NOT_FOUND" then
    modelNotFoundTips errorMessage
  else if strIncludes errorMessage "quota" || strIncludes errorMessage "429" || strIncludes errorMessage "exceeded" then
    quotaExceededMsg
  else errorMessage

/-- generateLLMResponse of src/src/services/api.ts lines 32-81, as a function
of the backend outcome.  On a non-OK status the code composes an error
message (possibly augmented with remediation tips), throws it, and the
enclosing catch converts it to a failure result; on an OK status the parsed
body is returned verbatim; every thrown Error e yields
(content: "Error: " ++ e.message, success: false, error: e.message). -/
def generateLLMResponse (req : LLMRequest) (o : GenOutcome) : LLMResponse :=
  match o with
  | GenOutcome.netFail msg => ⟨"Error: " ++ msg, false, some msg⟩
  | GenOutcome.resp ok status body =>
    if !ok then
      let errorData := match body with | some b => b.error | none => none
      let errorMessage := jsTruthyOr errorData ("HTTP error! status: " ++ toString status)
      let thrown := composeThrownError errorMessage
      ⟨"Error: " ++ thrown, false, some thrown⟩
    else
      match body with
      | some data => ⟨data.content, data.success, data.error⟩
      | none => ⟨"Error: " ++ jsonParseErrorMsg, false, some jsonParseErrorMsg⟩

/-- Callback events observed by the caller of the incremental transport, in
order: onChunk fragments, then onComplete or onError. -/
inductive StreamEvent
  | chunk (s : String)
  | complete
  | error (msg : String)
deriving DecidableEq, Repr

/-- Whether an event terminates the incremental call (onComplete or
onError). -/
def isTerminal : StreamEvent → Bool
  | StreamEvent.chunk _ => false
  | StreamEvent.complete => true
  | StreamEvent.error _ => true

/-- One line of a decoded server-sent-events read, as classified by the
client loop of src/src/services/api.ts lines 176-195: a line not starting
with "data: ", a data line whose payload JSON.parse rejects, or a parsed
frame with its content, error and done fields (absent string fields read as
the falsy ""). -/
inductive SSELine
  | other
  | dataMalformed
  | dataFrame (content : String) (err : String) (isDone : Bool)
deriving DecidableEq, Repr

/-- The per-read line loop of src/src/services/api.ts lines 176-195: a
malformed data line is skipped; a frame with a truthy error field ends the
call with onError; otherwise a truthy content field emits onChunk, and a
truthy done field ends the call with onComplete.  Returns the emitted
fragment events and the terminal event when the loop ended the call. -/
def scanLines : List SSELine → List StreamEvent × Option StreamEvent
  | [] => ([], none)
  | SSELine.other :: rest => scanLines rest
  | SSELine.dataMalformed :: rest => scanLines rest
  | SSELine.dataFrame content err isDone :: rest =>
    if err ≠ "" then ([], some (StreamEvent.error err))
    else
      let emitted := if content ≠ "" then [StreamEvent.chunk content] else []
      if isDone then (emitted, some StreamEvent.complete)
      else
        (emitted ++ (scanLines rest).1, (scanLines rest).2)

/-- The read loop of src/src/services/api.ts lines 164-196: reads are
processed in order until a batch ends the call; an exhausted reader (done)
fires onComplete. -/
def runReader : List (List SSELine) → List StreamEvent
  | [] => [StreamEvent.complete]
  | batch :: rest =>
    match (scanLines batch).2 with
    | some t => (scanLines batch).1 ++ [t]
    | none => (scanLines batch).1 ++ runReader rest

/-- The error sniffing of a non-OK event-stream response,
src/src/services/api.ts lines 127-142: the first read's lines are scanned
for a frame with a truthy error field; a parse failure aborts the whole scan
(the catch falls through to the default HTTP error). -/
def sniffError : List SSELine → Option String
  | [] => none
  | SSELine.other :: rest => sniffError rest
  | SSELine.dataMalformed :: _ => none
  | SSELine.dataFrame _ err _ :: rest =>
    if err ≠ "" then some err else sniffError rest

/-- A response of the streaming endpoint: ok flag, status, whether the
content-type includes text/event-stream, the reader's reads (none models a
null body), and the error field of the body when read as JSON (used by the
non-event-stream error path; none models absence or a parse failure). -/
structure StreamResp where
  ok : Bool
  status : Nat
  sseContentType : Bool
  reader : Option (List (List SSELine))
  jsonError : Option String

/-- Backend behavior of one invocation of the streaming endpoint: the fetch
rejects with an Error carrying a message, or a response arrives. -/
inductive StreamBehavior
  | netFail (msg : String)
  | resp (r : StreamResp)

/-- generateLLMResponseStream of src/src/services/api.ts lines 86-201, as
the ordered list of callback events, as a function of the streaming
endpoint's behavior and — for the 404 fallback — of the blocking endpoint's
outcome.  On status 404 the blocking call is made and its content replayed
character by character before onComplete; other non-OK responses produce a
single onError (sniffed from an event-stream body, from a JSON error field,
or the default HTTP error); an OK response is driven through the read
loop. -/
def generateLLMResponseStream (req : LLMRequest) (sb : StreamBehavior)
    (gb : GenOutcome) : List StreamEvent :=
  match sb with
  | StreamBehavior.netFail msg => [StreamEvent.error msg]
  | StreamBehavior.resp r =>
    if !r.ok then
      if r.status = 404 then
        let fallbackResponse := generateLLMResponse req gb
        if fallbackResponse.success && decide (fallbackResponse.content ≠ "") then
          fallbackResponse.content.toList.map
            (fun c => StreamEvent.chunk (String.singleton c)) ++ [StreamEvent.complete]
        else
          [StreamEvent.error (jsTruthyOr fallbackResponse.error "Failed to generate response")]
      else if r.sseContentType then
        match r.reader with
        | some batches =>
          match sniffError (batches.headD []) with
          | some e => [StreamEvent.error e]
          | none => [StreamEvent.error ("HTTP error! status: " ++ toString r.status)]
        | none => [StreamEvent.error ("HTTP error! status: " ++ toString r.status)]
      else
        [StreamEvent.error (jsTruthyOr r.jsonError ("HTTP error! status: " ++ toString r.status))]
    else
      match r.reader with
      | none => [StreamEvent.error "Failed to get response stream"]
      | some batches => runReader batches

/-! ## Server LLM service (provider message building) -/

/-- The provider message-list construction shared, textually identically, by
the four Groq/DeepSeek paths of the server LLM service: generateResponse
(Groq branch and DeepSeek branch) and generateStreamingResponse (Groq branch
and DeepSeek branch).  This is the history-appending loop: roles "user" and
"human" map to "user", "assistant" and "ai" to "assistant", "system" passes
through, anything else is dropped. -/
def appendHistory (messages : List RoleMsg) : List RoleMsg → List RoleMsg
  | [] => messages
  | msg :: rest =>
    appendHistory
      (if msg.role = "user" ∨ msg.role = "human" then messages ++ [⟨"user", msg.content⟩]
       else if msg.role = "assistant" ∨ msg.role = "ai" then messages ++ [⟨"assistant", msg.content⟩]
       else if msg.role = "system" then messages ++ [⟨"system", msg.content⟩]
       else messages) rest

/-- The full provider message list of the four Groq/DeepSeek paths of the
server LLM service: optional system message, mapped history, then the
synthetic user "Hello" message when no user-role message is present. -/
def buildProviderMessages (systemPrompt : String) (conversationHistory : List RoleMsg) : List RoleMsg :=
  let base : List RoleMsg := if systemPrompt ≠ "" then [⟨"system", systemPrompt⟩] else []
  let messages := appendHistory base conversationHistory
  if (messages.filter (fun m => decide (m.role = "user"))).length = 0 then
    messages ++ [⟨"user", "Hello"⟩]
  else messages

/-! ## Server stream route (src/server/routes/llm.js, POST /llm/stream) -/

/-- One server-sent data event written by the stream route: the fields of
the JSON payload that the route ever sets. -/
structure SSEData where
  content : Option String
  error : Option String
  done : Bool
deriving DecidableEq, Repr

/-- JavaScript falsiness of a possibly-absent string (undefined, null or
empty). -/
def jsFalsyStr (o : Option String) : Bool :=
  match o with
  | none => true
  | some s => decide (s = "")

/-- isDeepSeek sniffing of src/server/routes/llm.js line 114. -/
def modelIsDeepSeek (m : String) : Bool :=
  m.toLower.startsWith "deepseek"

/-- isGroq sniffing of src/server/routes/llm.js line 115. -/
def modelIsGroq (m : String) : Bool :=
  m.toLower.startsWith "groq-" || strIncludes m.toLower "llama" || strIncludes m.toLower "mixtral"

/-- The missing-API-key error text of src/server/routes/llm.js
lines 131-137. -/
def apiKeyErrorMsg (isGroq isDeepSeek : Bool) (serviceName : String) : String :=
  "API key not configured for " ++ serviceName ++ ". " ++
    (if isGroq then "Get your free API key at: https://console.groq.com/keys"
     else if isDeepSeek then "Get your API key at: https://platform.deepseek.com/usage"
     else "Set OPENAI_API_KEY in your .env file")

/-- Server environment: the three provider API keys. -/
structure ServerEnv where
  groqKey : Option String
  deepseekKey : Option String
  openaiKey : Option String

/-- The apiKey selection of src/server/routes/llm.js lines 116-128: the key
looked up for the sniffed provider of the model identifier. -/
def selectApiKey (env : ServerEnv) (m : String) : Option String :=
  if modelIsGroq m then env.groqKey
  else if modelIsDeepSeek m then env.deepseekKey
  else env.openaiKey

/-- The serviceName selection of src/server/routes/llm.js lines 116-128. -/
def selectServiceName (m : String) : String :=
  if modelIsGroq m then "Groq"
  else if modelIsDeepSeek m then "DeepSeek"
  else "OpenAI"

/-- Behavior of one call of generateStreamingResponse as observed by the
route: the emitted chunks, and whether the call then returns or throws an
Error carrying a message. -/
inductive ProviderRun
  | ok (chunks : List String)
  | throwsWith (chunks : List String) (msg : String)

/-- The POST /llm/stream route of src/server/routes/llm.js lines 90-162, as
the ordered list of data events written: validation failures and the missing
API key are reported as a single error event with done:true; otherwise each
provider chunk is written with done:false, followed by the completion event
(done:true) or, when the provider throws, an error event with done:true. -/
def streamRoute (model : Option String) (conversationHistory : Option (List RoleMsg))
    (env : ServerEnv) (run : ProviderRun) : List SSEData :=
  if jsFalsyStr model then [⟨none, some "Model is required", true⟩]
  else
    match conversationHistory with
    | none => [⟨none, some "Conversation history must be an array", true⟩]
    | some _ =>
      if jsFalsyStr (selectApiKey env (model.getD "")) then
        [⟨none, some (apiKeyErrorMsg (modelIsGroq (model.getD "")) (modelIsDeepSeek (model.getD ""))
            (selectServiceName (model.getD ""))), true⟩]
      else
        match run with
        | ProviderRun.ok chunks =>
          chunks.map (fun c => ⟨some c, none, false⟩) ++ [⟨some "", none, true⟩]
        | ProviderRun.throwsWith chunks msg =>
          chunks.map (fun c => ⟨some c, none, false⟩) ++
            [⟨none, some (jsTruthyOr (some msg) "Internal server error"), true⟩]

/-! ## Helper lemmas -/

theorem append_ne_empty_left (a b : String) (h : a ≠ "") : a ++ b ≠ "" := by
  intro hab
  apply h
  cases a with
  | mk da =>
    cases b with
    | mk db =>
      have hd : da ++ db = [] := congrArg String.data hab
      have hda : da = [] := (List.append_eq_nil.mp hd).1
      rw [hda]

theorem append_ne_empty_right (a b : String) (h : b ≠ "") : a ++ b ≠ "" := by
  intro hab
  apply h
  cases a with
  | mk da =>
    cases b with
    | mk db =>
      have hd : da ++ db = [] := congrArg String.data hab
      have hdb : db = [] := (List.append_eq_nil.mp hd).2
      rw [hdb]

theorem jsTruthyOr_ne_empty (o : Option String) (d : String) (h : d ≠ "") :
    jsTruthyOr o d ≠ "" := by
  unfold jsTruthyOr
  cases o with
  | none => exact h
  | some s =>
    show (if s = "" then d else s) ≠ ""
    by_cases hs : s = ""
    · rw [if_pos hs]
      exact h
    · rw [if_neg hs]
      exact hs

theorem composeThrownError_ne_empty (em : String) (hem : em ≠ "") :
    composeThrownError em ≠ "" := by
  unfold composeThrownError
  split
  · exact append_ne_empty_right em _ (by decide)
  · split
    · decide
    · exact hem

theorem jsTrim_empty : jsTrim "" = "" := rfl

/-! ## Claim C1 -/

/-- Claim C1, corrected: after handleReset, running is false, the current
turn is none, the turn counter is 0, and each conversation log holds exactly
one fresh initial greeting message (not the empty log the claim states). -/
theorem reset_clears_state (topic : String) (startingLlm : Option Side) (now : String)
    (s : IndexState) :
    (handleReset topic startingLlm now s).isRunning = false ∧
    (handleReset topic startingLlm now s).currentTurn = none ∧
    (handleReset topic startingLlm now s).turnCount = 0 ∧
    (handleReset topic startingLlm now s).llm1Messages
      = [⟨"1", getInitialMessage topic 1 (decide (startingLlm = some Side.llm1)), now⟩] ∧
    (handleReset topic startingLlm now s).llm2Messages
      = [⟨"1", getInitialMessage topic 2 (decide (startingLlm = some Side.llm2)), now⟩] :=
  ⟨rfl, rfl, rfl, rfl, rfl⟩

/-- Claim C1, counterexample to the claim as stated: after handleReset the
conversation logs are not empty — each holds one greeting message. -/
theorem reset_logs_nonempty :
    (handleReset "t" (some Side.llm1) "ts"
        ⟨true, some Side.llm2, 5, [], [], false, false⟩).llm1Messages ≠ [] ∧
    (handleReset "t" (some Side.llm1) "ts"
        ⟨true, some Side.llm2, 5, [], [], false, false⟩).llm2Messages ≠ [] := by
  constructor <;> simp [handleReset]

/-! ## Claim C2 -/

/-- Claim C2, corrected: every send-message completion increases the turn
counter by exactly 1 and sets the current turn to the completing
participant's peer; hence the current turn differs across two successive
completions whenever they are made by different participants (but not when
the same participant completes twice in a row). -/
theorem send_turn_step (p q : Side) (id1 ts1 id2 ts2 : String) (s : IndexState)
    (hpq : p ≠ q) :
    (sendMessage p id1 ts1 s).turnCount = s.turnCount + 1 ∧
    (sendMessage p id1 ts1 s).currentTurn = some p.peer ∧
    (sendMessage q id2 ts2 (sendMessage p id1 ts1 s)).currentTurn
      ≠ (sendMessage p id1 ts1 s).currentTurn := by
  cases p <;> cases q <;>
    simp_all [sendMessage, handleLlm1SendMessage, handleLlm2SendMessage, Side.peer]

/-- Witness for send_turn_step at participant 1 followed by participant 2
from the started initial state. -/
theorem send_turn_step_witness :
    Side.llm1 ≠ Side.llm2 ∧
    ((sendMessage Side.llm1 "100" "t1"
        (handleStart (some Side.llm1) (initialState "t" (some Side.llm1) "t0"))).turnCount
      = (handleStart (some Side.llm1) (initialState "t" (some Side.llm1) "t0")).turnCount + 1 ∧
    (sendMessage Side.llm1 "100" "t1"
        (handleStart (some Side.llm1) (initialState "t" (some Side.llm1) "t0"))).currentTurn
      = some Side.llm1.peer ∧
    (sendMessage Side.llm2 "101" "t2" (sendMessage Side.llm1 "100" "t1"
        (handleStart (some Side.llm1) (initialState "t" (some Side.llm1) "t0")))).currentTurn
      ≠ (sendMessage Side.llm1 "100" "t1"
        (handleStart (some Side.llm1) (initialState "t" (some Side.llm1) "t0"))).currentTurn) :=
  ⟨by decide,
   send_turn_step Side.llm1 Side.llm2 "100" "t1" "101" "t2"
     (handleStart (some Side.llm1) (initialState "t" (some Side.llm1) "t0")) (by decide)⟩

/-- Claim C2, counterexample to the claim as stated: from the reachable
state obtained by starting the conversation, two successive send-message
completions by participant 1 leave the current turn at participant 2 both
times — the current-turn value does not strictly alternate, although each
completion does increase the counter by exactly 1. -/
theorem send_alternation_counterexample :
    (handleLlm1SendMessage "100" "t1"
      (handleStart (some Side.llm1) (initialState "t" (some Side.llm1) "t0"))).currentTurn
      = some Side.llm2 ∧
    (handleLlm1SendMessage "101" "t2" (handleLlm1SendMessage "100" "t1"
      (handleStart (some Side.llm1) (initialState "t" (some Side.llm1) "t0")))).currentTurn
      = some Side.llm2 ∧
    (handleLlm1SendMessage "100" "t1"
      (handleStart (some Side.llm1) (initialState "t" (some Side.llm1) "t0"))).turnCount = 2 ∧
    (handleLlm1SendMessage "101" "t2" (handleLlm1SendMessage "100" "t1"
      (handleStart (some Side.llm1) (initialState "t" (some Side.llm1) "t0")))).turnCount = 3 :=
  ⟨rfl, rfl, rfl, rfl⟩

/-! ## Claim C9 -/

theorem appendHistory_no_user (hist : List RoleMsg) (init : List RoleMsg)
    (hinit : ∀ m ∈ init, m.role ≠ "user")
    (hh : ∀ m ∈ hist, m.role ≠ "user" ∧ m.role ≠ "human") :
    ∀ m ∈ appendHistory init hist, m.role ≠ "user" := by
  induction hist generalizing init with
  | nil => exact hinit
  | cons msg rest ih =>
    have hmsg := hh msg (by simp)
    have hrest : ∀ m ∈ rest, m.role ≠ "user" ∧ m.role ≠ "human" :=
      fun m hm => hh m (by simp [hm])
    show ∀ m ∈ appendHistory _ rest, m.role ≠ "user"
    refine ih _ ?_ hrest
    rw [if_neg (by rintro (h | h) <;> simp_all)]
    intro m hm
    split at hm
    · rcases List.mem_append.mp hm with h | h
      · exact hinit m h
      · have hme : m = ⟨"assistant", msg.content⟩ := by simpa using h
        rw [hme]
        simp
    · split at hm
      · rcases List.mem_append.mp hm with h | h
        · exact hinit m h
        · have hme : m = ⟨"system", msg.content⟩ := by simpa using h
          rw [hme]
          simp
      · exact hinit m hm

/-- Claim C9: in the Groq and DeepSeek provider paths (blocking and
streaming alike), when the supplied conversation history has no entry whose
role maps to "user" (no "user" and no "human" entry), the built message list
is the mapped history with a synthetic user "Hello" message appended, so the
provider receives a list containing a user-role message. -/
theorem provider_hello_fallback (systemPrompt : String) (hist : List RoleMsg)
    (h : ∀ m ∈ hist, m.role ≠ "user" ∧ m.role ≠ "human") :
    buildProviderMessages systemPrompt hist
      = appendHistory (if systemPrompt ≠ "" then [⟨"system", systemPrompt⟩] else []) hist
          ++ [⟨"user", "Hello"⟩] ∧
    ∃ msg ∈ buildProviderMessages systemPrompt hist, msg.role = "user" := by
  have hinit : ∀ m ∈ (if systemPrompt ≠ "" then ([⟨"system", systemPrompt⟩] : List RoleMsg) else []),
      m.role ≠ "user" := by
    split
    · intro m hm
      have hme : m = ⟨"system", systemPrompt⟩ := by simpa using hm
      rw [hme]
      simp
    · intro m hm
      simp at hm
  have hnou := appendHistory_no_user hist _ hinit h
  have hfilter :
      (appendHistory (if systemPrompt ≠ "" then ([⟨"system", systemPrompt⟩] : List RoleMsg) else [])
        hist).filter (fun m => decide (m.role = "user")) = [] := by
    rw [List.filter_eq_nil_iff]
    intro a ha
    simpa using hnou a ha
  have hmain : buildProviderMessages systemPrompt hist
      = appendHistory (if systemPrompt ≠ "" then [⟨"system", systemPrompt⟩] else []) hist
          ++ [⟨"user", "Hello"⟩] := by
    simp only [buildProviderMessages]
    rw [hfilter]
    rfl
  refine ⟨hmain, ⟨"user", "Hello"⟩, ?_, rfl⟩
  rw [hmain]
  simp

/-- Witness for provider_hello_fallback at a history holding only an
assistant entry. -/
theorem provider_hello_fallback_witness :
    (∀ m ∈ ([⟨"assistant", "x"⟩] : List RoleMsg), m.role ≠ "user" ∧ m.role ≠ "human") ∧
    (buildProviderMessages "sys" [⟨"assistant", "x"⟩]
        = appendHistory (if ("sys" : String) ≠ "" then [⟨"system", "sys"⟩] else []) [⟨"assistant", "x"⟩]
            ++ [⟨"user", "Hello"⟩] ∧
      ∃ msg ∈ buildProviderMessages "sys" [⟨"assistant", "x"⟩], msg.role = "user") :=
  ⟨by decide, provider_hello_fallback "sys" [⟨"assistant", "x"⟩] (by decide)⟩

/-! ## Claim C10 -/

/-- Claim C10: every event sequence written by the POST /llm/stream route
ends with a data event whose done field is true — for validation failures,
the missing API key, a successful provider run and a provider run that
throws alike. -/
theorem stream_route_ends_done (model : Option String) (hist : Option (List RoleMsg))
    (env : ServerEnv) (run : ProviderRun) :
    ∃ pre e, streamRoute model hist env run = pre ++ [e] ∧ e.done = true := by
  unfold streamRoute
  split
  · exact ⟨[], _, rfl, rfl⟩
  · split
    · exact ⟨[], _, rfl, rfl⟩
    · split
      · exact ⟨[], _, rfl, rfl⟩
      · split
        · exact ⟨_, _, rfl, rfl⟩
        · exact ⟨_, _, rfl, rfl⟩

/-! ## Claim C4 -/

/-- Claim C4: formatMessagesForAPI returns the empty sequence exactly when
the interleaved history, after filtering out entries with empty or
whitespace-only content, contains no "user"-role entry. -/
theorem formatter_empty_iff (l1 l2 : List ChatMsg) (side : Side) :
    formatMessagesForAPI l1 l2 side = [] ↔
      ∀ e ∈ (interleavedHistory l1 l2 side).filter
          (fun msg => decide (msg.content ≠ "" ∧ jsTrim msg.content ≠ "")),
        e.role ≠ Role.user := by
  simp only [formatMessagesForAPI]
  by_cases h :
      ((interleavedHistory l1 l2 side).filter
        (fun msg => decide (msg.content ≠ "" ∧ jsTrim msg.content ≠ ""))).any
        (fun msg => decide (msg.role = Role.user)) = true
  · rw [if_pos h]
    rcases List.any_eq_true.mp h with ⟨x, hx, hqx⟩
    have hxu : x.role = Role.user := of_decide_eq_true hqx
    constructor
    · intro hnil
      rw [hnil] at hx
      exact absurd hx (List.not_mem_nil x)
    · intro hall
      exact absurd hxu (hall x hx)
  · rw [if_neg h]
    have hall : ∀ e ∈ (interleavedHistory l1 l2 side).filter
        (fun msg => decide (msg.content ≠ "" ∧ jsTrim msg.content ≠ "")),
        e.role ≠ Role.user := by
      intro e he heq
      exact h (List.any_eq_true.mpr ⟨e, he, decide_eq_true heq⟩)
    exact ⟨fun _ => hall, fun _ => rfl⟩

/-! ## Claim C3 -/

theorem formatter_output_of_hist (l1 l2 : List ChatMsg) (side : Side)
    (base : List Entry) (m : ChatMsg)
    (hcne : m.content ≠ "") (hm : jsTrim m.content ≠ "")
    (hist_eq : interleavedHistory l1 l2 side = base ++ [⟨Role.user, m.content⟩]) :
    (∃ pre, formatMessagesForAPI l1 l2 side = pre ++ [⟨Role.user, m.content⟩]) ∧
    ∀ e ∈ formatMessagesForAPI l1 l2 side, e.content ≠ "" ∧ jsTrim e.content ≠ "" := by
  have hfu : List.filter (fun msg => decide (msg.content ≠ "" ∧ jsTrim msg.content ≠ ""))
      [(⟨Role.user, m.content⟩ : Entry)] = [⟨Role.user, m.content⟩] := by
    simp [List.filter_cons, hcne, hm]
  have hfmt : formatMessagesForAPI l1 l2 side
      = base.filter (fun msg => decide (msg.content ≠ "" ∧ jsTrim msg.content ≠ ""))
          ++ [⟨Role.user, m.content⟩] := by
    simp only [formatMessagesForAPI, hist_eq]
    rw [List.filter_append, hfu]
    rw [if_pos (by simp [List.any_append])]
  constructor
  · exact ⟨_, hfmt⟩
  · intro e he
    rw [hfmt] at he
    rcases List.mem_append.mp he with h | h
    · exact of_decide_eq_true (List.mem_filter.mp h).2
    · have hme : e = ⟨Role.user, m.content⟩ := by simpa using h
      rw [hme]
      exact ⟨hcne, hm⟩

/-- Claim C3, corrected: when the peer's last entry after the initial one
has non-whitespace content, the formatter's output ends with a "user" entry
carrying exactly that content, and no entry of the output has empty or
whitespace-only content.  (The claim as stated — keyed to the peer's latest
non-empty entry — fails when the peer's last entry is whitespace-only; see
the counterexample.) -/
theorem formatter_trailing_user (l1 l2 : List ChatMsg) (side : Side) (m : ChatMsg)
    (hlast : (takeLast 20 ((peerLog side l1 l2).drop 1)).getLast? = some m)
    (hm : jsTrim m.content ≠ "") :
    (∃ pre, formatMessagesForAPI l1 l2 side = pre ++ [⟨Role.user, m.content⟩]) ∧
    ∀ e ∈ formatMessagesForAPI l1 l2 side, e.content ≠ "" ∧ jsTrim e.content ≠ "" := by
  have hcne : m.content ≠ "" := by
    intro hc
    apply hm
    rw [hc]
    exact jsTrim_empty
  cases side with
  | llm1 =>
    simp only [peerLog] at hlast
    refine formatter_output_of_hist l1 l2 Side.llm1
      (dropTrailingAssistants (buildPairs (takeLast 20 (l2.drop 1)) (takeLast 20 (l1.drop 1))))
      m hcne hm ?_
    simp only [interleavedHistory, ensureTrailingUser]
    rw [hlast]
    simp [hm]
  | llm2 =>
    simp only [peerLog] at hlast
    refine formatter_output_of_hist l1 l2 Side.llm2
      (dropTrailingAssistants (buildPairs (takeLast 20 (l1.drop 1)) (takeLast 20 (l2.drop 1))))
      m hcne hm ?_
    simp only [interleavedHistory, ensureTrailingUser]
    rw [hlast]
    simp [hm]

/-- Witness for formatter_trailing_user at the spec instance: participant A
log = a1,a2,a3, participant B log = b1,b2, responding as A; the output ends
with a "user" entry equal to b2's content and no entry is whitespace-only. -/
theorem formatter_trailing_user_witness :
    (takeLast 20 ((peerLog Side.llm1 [⟨"a1", "1"⟩, ⟨"a2", "2"⟩, ⟨"a3", "3"⟩]
        [⟨"b1", "1"⟩, ⟨"b2", "2"⟩]).drop 1)).getLast? = some ⟨"b2", "2"⟩ ∧
    jsTrim "b2" ≠ "" ∧
    ((∃ pre, formatMessagesForAPI [⟨"a1", "1"⟩, ⟨"a2", "2"⟩, ⟨"a3", "3"⟩]
        [⟨"b1", "1"⟩, ⟨"b2", "2"⟩] Side.llm1 = pre ++ [⟨Role.user, "b2"⟩]) ∧
      ∀ e ∈ formatMessagesForAPI [⟨"a1", "1"⟩, ⟨"a2", "2"⟩, ⟨"a3", "3"⟩]
        [⟨"b1", "1"⟩, ⟨"b2", "2"⟩] Side.llm1, e.content ≠ "" ∧ jsTrim e.content ≠ "") :=
  ⟨by decide, by decide,
   formatter_trailing_user [⟨"a1", "1"⟩, ⟨"a2", "2"⟩, ⟨"a3", "3"⟩]
     [⟨"b1", "1"⟩, ⟨"b2", "2"⟩] Side.llm1 ⟨"b2", "2"⟩ (by decide) (by decide)⟩

/-- Claim C3, counterexample to the claim as stated: responding as
participant 1 with peer log g2,"hi"," " — the peer has a non-empty entry
after the first ("hi"), and the output is non-empty, yet it ends with an
assistant entry, not with a "user" entry equal to the peer's latest
non-empty content. -/
theorem formatter_trailing_user_counterexample :
    jsTrim "hi" ≠ "" ∧
    formatMessagesForAPI [⟨"g1", "1"⟩, ⟨"This is a1", "2"⟩]
        [⟨"g2", "1"⟩, ⟨"hi", "2"⟩, ⟨" ", "3"⟩] Side.llm1
      = [⟨Role.user, "hi"⟩, ⟨Role.assistant, "This is a1"⟩] ∧
    (formatMessagesForAPI [⟨"g1", "1"⟩, ⟨"This is a1", "2"⟩]
        [⟨"g2", "1"⟩, ⟨"hi", "2"⟩, ⟨" ", "3"⟩] Side.llm1).getLastD ⟨Role.user, ""⟩
      = ⟨Role.assistant, "This is a1"⟩ := by
  refine ⟨by decide, by decide, by decide⟩

/-! ## Claim C5 -/

/-- Claim C5: for every request and every failing backend outcome — non-OK
HTTP status, malformed response body, or a network failure whose Error
message is (as the JavaScript runtime guarantees) non-empty — the blocking
transport call returns success = false with a non-empty error field; no
exception reaches the caller (the embedding is total by construction). -/
theorem generate_failure_result (req : LLMRequest) (o : GenOutcome)
    (hfail : o.isFailure) (hmsg : ∀ msg, o = GenOutcome.netFail msg → msg ≠ "") :
    (generateLLMResponse req o).success = false ∧
    ∃ e, (generateLLMResponse req o).error = some e ∧ e ≠ "" := by
  cases o with
  | netFail msg =>
    exact ⟨rfl, msg, rfl, hmsg msg rfl⟩
  | resp ok status body =>
    cases ok with
    | false =>
      cases body with
      | none =>
        refine ⟨rfl, composeThrownError (jsTruthyOr none
            ("HTTP error! status: " ++ toString status)), rfl, ?_⟩
        refine composeThrownError_ne_empty _ (jsTruthyOr_ne_empty _ _ ?_)
        exact append_ne_empty_left "HTTP error! status: " _ (by decide)
      | some b =>
        refine ⟨rfl, composeThrownError (jsTruthyOr b.error
            ("HTTP error! status: " ++ toString status)), rfl, ?_⟩
        refine composeThrownError_ne_empty _ (jsTruthyOr_ne_empty _ _ ?_)
        exact append_ne_empty_left "HTTP error! status: " _ (by decide)
    | true =>
      rcases hfail with h | h
      · exact absurd h (by simp)
      · rw [h]
        exact ⟨rfl, jsonParseErrorMsg, rfl, by decide⟩

/-- Witness for generate_failure_result at a 500 response with a malformed
error body. -/
theorem generate_failure_result_witness :
    (GenOutcome.resp false 500 none).isFailure ∧
    ((generateLLMResponse ⟨"gpt-4", 0.7, 2000, "", []⟩ (GenOutcome.resp false 500 none)).success
        = false ∧
      ∃ e, (generateLLMResponse ⟨"gpt-4", 0.7, 2000, "", []⟩
          (GenOutcome.resp false 500 none)).error = some e ∧ e ≠ "") :=
  ⟨Or.inl rfl,
   generate_failure_result ⟨"gpt-4", 0.7, 2000, "", []⟩ (GenOutcome.resp false 500 none)
     (Or.inl rfl) (fun msg h => GenOutcome.noConfusion h)⟩

/-! ## Claim C6 -/

/-- Claim C6: when the streaming endpoint responds 404 and the blocking
fallback returns content "Hi there" with success, the caller observes a
sequence of fragment callbacks whose concatenation is "Hi there", followed
by exactly one completion callback. -/
theorem stream_fallback_replay (req : LLMRequest) (r : StreamResp) (gb : GenOutcome)
    (hok : r.ok = false) (h404 : r.status = 404)
    (hfb : generateLLMResponse req gb = ⟨"Hi there", true, none⟩) :
    ∃ frags : List String,
      generateLLMResponseStream req (StreamBehavior.resp r) gb
        = frags.map StreamEvent.chunk ++ [StreamEvent.complete] ∧
      String.join frags = "Hi there" := by
  refine ⟨"Hi there".toList.map String.singleton, ?_, by decide⟩
  simp only [generateLLMResponseStream, hok, h404, hfb]
  rw [List.map_map]
  simp

/-- Witness for stream_fallback_replay at a concrete 404 response and a
blocking backend returning Hi there. -/
theorem stream_fallback_replay_witness :
    (StreamResp.mk false 404 false none none).ok = false ∧
    (StreamResp.mk false 404 false none none).status = 404 ∧
    generateLLMResponse ⟨"gpt-4", 0.7, 2000, "", []⟩
        (GenOutcome.resp true 200 (some ⟨"Hi there", true, none⟩))
      = ⟨"Hi there", true, none⟩ ∧
    ∃ frags : List String,
      generateLLMResponseStream ⟨"gpt-4", 0.7, 2000, "", []⟩
          (StreamBehavior.resp ⟨false, 404, false, none, none⟩)
          (GenOutcome.resp true 200 (some ⟨"Hi there", true, none⟩))
        = frags.map StreamEvent.chunk ++ [StreamEvent.complete] ∧
      String.join frags = "Hi there" :=
  ⟨rfl, rfl, rfl,
   stream_fallback_replay ⟨"gpt-4", 0.7, 2000, "", []⟩ ⟨false, 404, false, none, none⟩
     (GenOutcome.resp true 200 (some ⟨"Hi there", true, none⟩)) rfl rfl rfl⟩

/-! ## Claim C7 -/

theorem scanLines_fst_nonterminal (lines : List SSELine) :
    ∀ e ∈ (scanLines lines).1, isTerminal e = false := by
  induction lines with
  | nil => simp [scanLines]
  | cons l rest ih =>
    cases l with
    | other => simpa [scanLines] using ih
    | dataMalformed => simpa [scanLines] using ih
    | dataFrame c err d =>
      by_cases he : err ≠ ""
      · simp [scanLines, he]
      · by_cases hd : d
        · intro e hee
          simp only [scanLines, if_neg he, hd, if_true] at hee
          rcases (by split at hee <;> simpa using hee :
            e = StreamEvent.chunk c ∨ False) with h | h
          · rw [h]; rfl
          · exact absurd h not_false
        · intro e hee
          simp only [scanLines, if_neg he, hd, if_false] at hee
          rcases List.mem_append.mp hee with h | h
          · split at h
            · have : e = StreamEvent.chunk c := by simpa using h
              rw [this]; rfl
            · simp at h
          · exact ih e h

theorem scanLines_snd_terminal (lines : List SSELine) (t : StreamEvent)
    (h : (scanLines lines).2 = some t) : isTerminal t = true := by
  induction lines with
  | nil => simp [scanLines] at h
  | cons l rest ih =>
    cases l with
    | other => exact ih (by simpa [scanLines] using h)
    | dataMalformed => exact ih (by simpa [scanLines] using h)
    | dataFrame c err d =>
      by_cases he : err ≠ ""
      · simp only [scanLines, if_pos he] at h
        have h2 : StreamEvent.error err = t := by simpa using h
        rw [← h2]; rfl
      · by_cases hd : d
        · simp only [scanLines, if_neg he, hd, if_true] at h
          have h2 : StreamEvent.complete = t := by simpa using h
          rw [← h2]; rfl
        · simp only [scanLines, if_neg he, hd, if_false] at h
          exact ih h

theorem runReader_shape (batches : List (List SSELine)) :
    ∃ pre t, runReader batches = pre ++ [t] ∧ isTerminal t = true ∧
      ∀ e ∈ pre, isTerminal e = false := by
  induction batches with
  | nil => exact ⟨[], StreamEvent.complete, rfl, rfl, by simp⟩
  | cons batch rest ih =>
    cases hscan : (scanLines batch).2 with
    | some t =>
      refine ⟨(scanLines batch).1, t, ?_, scanLines_snd_terminal batch t hscan, ?_⟩
      · simp [runReader, hscan]
      · exact scanLines_fst_nonterminal batch
    | none =>
      rcases ih with ⟨pre, t, heq, ht, hpre⟩
      refine ⟨(scanLines batch).1 ++ pre, t, ?_, ht, ?_⟩
      · simp [runReader, hscan, heq]
      · intro e he
        rcases List.mem_append.mp he with h | h
        · exact scanLines_fst_nonterminal batch e h
        · exact hpre e h

/-- Claim C7: in every invocation of the incremental transport and for every
backend behavior, the observed callback sequence consists of non-terminal
fragment callbacks followed by exactly one terminal callback (onComplete or
onError), after which nothing fires. -/
theorem stream_single_terminal (req : LLMRequest) (sb : StreamBehavior) (gb : GenOutcome) :
    ∃ pre t, generateLLMResponseStream req sb gb = pre ++ [t] ∧ isTerminal t = true ∧
      ∀ e ∈ pre, isTerminal e = false := by
  cases sb with
  | netFail msg => exact ⟨[], StreamEvent.error msg, rfl, rfl, by simp⟩
  | resp r =>
    simp only [generateLLMResponseStream]
    by_cases hok : r.ok
    · simp only [hok, Bool.not_true, Bool.false_eq_true, if_false]
      cases r.reader with
      | none => exact ⟨[], StreamEvent.error "Failed to get response stream", rfl, rfl, by simp⟩
      | some batches => exact runReader_shape batches
    · have hok' : r.ok = false := by simpa using hok
      simp only [hok', Bool.not_false, if_true]
      by_cases h404 : r.status = 404
      · simp only [h404, if_pos rfl]
        by_cases hfb : ((generateLLMResponse req gb).success
            && decide ((generateLLMResponse req gb).content ≠ "")) = true
        · rw [if_pos hfb]
          refine ⟨_, StreamEvent.complete, rfl, rfl, ?_⟩
          intro e he
          rcases List.mem_map.mp he with ⟨c, _, hc⟩
          rw [← hc]
          rfl
        · rw [if_neg hfb]
          exact ⟨[], _, rfl, rfl, by simp⟩
      · rw [if_neg h404]
        by_cases hsse : r.sseContentType = true
        · rw [if_pos hsse]
          cases hr : r.reader with
          | none =>
            refine ⟨[], StreamEvent.error ("HTTP error! status: " ++ toString r.status),
              ?_, rfl, by simp⟩
            rfl
          | some batches =>
            cases hs : sniffError (batches.headD []) with
            | some e =>
              refine ⟨[], StreamEvent.error e, ?_, rfl, by simp⟩
              simp only [hs, List.nil_append]
            | none =>
              refine ⟨[], StreamEvent.error ("HTTP error! status: " ++ toString r.status),
                ?_, rfl, by simp⟩
              simp only [hs, List.nil_append]
        · rw [if_neg hsse]
          exact ⟨[], _, rfl, rfl, by simp⟩

/-! ## Claim C8 -/

theorem scanLines_malformed (pre post : List SSELine) :
    scanLines (pre ++ SSELine.dataMalformed :: post) = scanLines (pre ++ post) := by
  induction pre with
  | nil => simp [scanLines]
  | cons l pre' ih =>
    cases l with
    | other => simpa [scanLines] using ih
    | dataMalformed => simpa [scanLines] using ih
    | dataFrame c err d =>
      by_cases he : err ≠ ""
      · simp [scanLines, he]
      · by_cases hd : d
        · simp [scanLines, he, hd]
        · simp [scanLines, he, hd, ih]

theorem runReader_cong (b1 : List (List SSELine)) (x y : List SSELine)
    (h : scanLines x = scanLines y) (b2 : List (List SSELine)) :
    runReader (b1 ++ x :: b2) = runReader (b1 ++ y :: b2) := by
  induction b1 with
  | nil => simp [runReader, h]
  | cons b b1' ih => simp [runReader, ih]

/-- Claim C8: on an OK streaming response, a data line whose payload is not
parseable JSON is skipped without terminating the call — the observed
callback sequence is identical to that of the same stream with the malformed
line removed, so all subsequent well-formed frames are still delivered and
termination happens only on an error frame, a done frame, or closure. -/
theorem stream_skips_malformed (req : LLMRequest) (gb : GenOutcome) (status : Nat)
    (sse : Bool) (je : Option String) (b1 b2 : List (List SSELine))
    (pre post : List SSELine) :
    generateLLMResponseStream req
        (StreamBehavior.resp
          ⟨true, status, sse, some (b1 ++ (pre ++ SSELine.dataMalformed :: post) :: b2), je⟩) gb
      = generateLLMResponseStream req
        (StreamBehavior.resp ⟨true, status, sse, some (b1 ++ (pre ++ post) :: b2), je⟩) gb := by
  simp only [generateLLMResponseStream]
  exact runReader_cong b1 _ _ (scanLines_malformed pre post) b2

end DualLLMChat
